import Mathlib

/-!
# Apothesis: the Adsorption process (src/processes/adsorption.h)

A shallow embedding of the `MicroProcesses::Adsorption` class.

* The private data members and the inline member functions of the header
  (`setTargetSite`, `getTargetSite`, `setAdrorbed`, `setNumSites`,
  `getNumSites`) are translated from the header itself.
* `Site`, the lattice, and the out-of-line member functions (`rules`,
  `perform`, `getProbability`, the `mf_*` rules and executions) are only
  declared in the header; their definitions below follow the specification
  and say so in their doc comments.

A C++ pointer `Site*` is a value of `Option Nat`: `none` is the null pointer,
`some i` points to the site stored at index `i` of the lattice.  A C++
`double` is kept as its IEEE-754 bit pattern: the functions modelled here
store and load doubles and never compute with them.  A C++ `int` is an `Int`;
no arithmetic that could overflow is performed on it.
-/

namespace MicroProcesses

/-- A C++ `double`, kept as its 64-bit IEEE-754 bit pattern. -/
structure Double where
  bits : Nat
  deriving DecidableEq, Repr

/-- A `Site*`: `none` is the null pointer. -/
abbrev SitePtr := Option Nat

/-- The member functions `m_fType` may point to (`void (Adsorption::*)()`). -/
inductive TypeFn where
  | constantType
  | mf_simpleType
  | arrheniusType
  deriving DecidableEq, Repr

/-- The member functions `m_fRules` may point to (`bool (Adsorption::*)(Site*)`). -/
inductive RulesFn where
  | mf_uncoRule
  | mf_basicRule
  | mf_multiSpeciesRule
  | mf_multiSpeciesSimpleRule
  deriving DecidableEq, Repr

/-- The member functions `m_fPerform` may point to (`void (Adsorption::*)(Site*)`). -/
inductive PerformFn where
  | mf_signleSpeciesSimpleAdsorption
  | mf_signleSpeciesAdsorption
  | mf_multiSpeciesSimpleAdsorption
  | mf_multiSpeciesAdsorption
  deriving DecidableEq, Repr

/-- The private data members of `class Adsorption`, in the order of the header. -/
structure Adsorption where
  m_fType : TypeFn
  m_fRules : RulesFn
  m_fPerform : PerformFn
  m_Site : SitePtr
  m_dStick : Double
  m_dF : Double
  m_dCtot : Double
  m_dMW : Double
  m_sAdsorbed : String
  m_iNumSites : Int
  m_dAdsorptionRate : Double
  deriving DecidableEq, Repr

namespace Adsorption

/-- `inline void setTargetSite( Site* site ){ m_Site = site;}` -/
def setTargetSite (p : Adsorption) (site : SitePtr) : Adsorption :=
  { p with m_Site := site }

/-- `inline Site* getTargetSite(){ return m_Site; }`: the returned pointer and
the object after the call. -/
def getTargetSite (p : Adsorption) : SitePtr × Adsorption :=
  (p.m_Site, p)

/-- `void setAdrorbed(string adsorbed){ m_sAdsorbed = adsorbed;}` -/
def setAdrorbed (p : Adsorption) (adsorbed : String) : Adsorption :=
  { p with m_sAdsorbed := adsorbed }

/-- `inline void setNumSites( int i ) { m_iNumSites = i;}` -/
def setNumSites (p : Adsorption) (i : Int) : Adsorption :=
  { p with m_iNumSites := i }

/-- `inline int getNumSites() { return m_iNumSites;}`: the returned int and the
object after the call. -/
def getNumSites (p : Adsorption) : Int × Adsorption :=
  (p.m_iNumSites, p)

end Adsorption

/-! ## The lattice and the out-of-line member functions -/

/-- Modelled from the spec: the external Site Model (the class `Site` is not
part of the sources).  A site has an occupancy label, a recorded species
identity, a height and the ordered references to its neighbours. -/
structure Site where
  label : String
  species : Option String
  height : Int
  neighs : List Nat
  deriving DecidableEq, Repr

/-- Modelled from the spec: the lattice (not part of the sources), the sites
addressed by index together with the empty-lattice species label that marks a
vacant site. -/
structure Lattice where
  sites : List Site
  vacant : String
  deriving DecidableEq, Repr

namespace Lattice

/-- Occupancy label of site `i`; `none` when `i` is out of the lattice bounds. -/
def label (L : Lattice) (i : Nat) : Option String :=
  (L.sites[i]?).map Site.label

/-- Height of site `i`; `none` when `i` is out of the lattice bounds. -/
def height (L : Lattice) (i : Nat) : Option Int :=
  (L.sites[i]?).map Site.height

/-- Modelled from the spec: a site is vacant when its occupancy label matches
the empty-lattice sentinel. -/
def isVacant (L : Lattice) (i : Nat) : Bool :=
  decide (L.label i = some L.vacant)

/-- Apply `f` to site `i`, leaving every other site and the sentinel as they are. -/
def update (L : Lattice) (f : Site → Site) (i : Nat) : Lattice :=
  { L with sites := L.sites.modify f i }

end Lattice

/-- Modelled from the spec: the footprint-neighbour enumeration, which the
spec leaves open beyond being deterministic and shared by the rule and the
execution.  Given the lattice, the target site and the configured footprint
size it lists the relevant neighbours of the target. -/
abbrev Enumeration := Lattice → Nat → Int → List Nat

/-- Modelled from the spec: the enumeration the spec suggests, the first
`n - 1` neighbours of the target in fixed neighbour-index order. -/
def indexOrder : Enumeration := fun L s n =>
  (((L.sites[s]?).map Site.neighs).getD []).take (n - 1).toNat

/-- Modelled from the spec: the footprint, the target site plus its relevant
neighbours. -/
def footprint (e : Enumeration) (L : Lattice) (s : Nat) (n : Int) : List Nat :=
  s :: e L s n

/-- Modelled from the spec: single-species execution marks a site occupied with
the configured species. -/
def markOccupied (sp : String) (st : Site) : Site :=
  { st with label := sp }

/-- Modelled from the spec: multi-species execution marks a site occupied with
the configured species and records the species identity of the site. -/
def markSpecies (sp : String) (st : Site) : Site :=
  { st with label := sp, species := some sp }

/-- Modelled from the spec: the rate laws other than the constant one compute
with floating-point numbers and ambient conditions; they are taken as given
functions of the process object. -/
structure RateLaws where
  simple : Adsorption → Double
  arrhenius : Adsorption → Double

namespace Adsorption

/-- Modelled from the spec: `mf_uncoRule`, declared in the header without a
body; the unconditional rule is always true. -/
def mf_uncoRule (_p : Adsorption) (_L : Lattice) (_s : Nat) : Bool :=
  true

/-- Modelled from the spec: `mf_basicRule`, declared in the header without a
body; true iff the occupancy of the site equals the vacant sentinel. -/
def mf_basicRule (_p : Adsorption) (L : Lattice) (s : Nat) : Bool :=
  L.isVacant s

/-- Modelled from the spec: `mf_multiSpeciesSimpleRule`, declared in the header
without a body; true iff the site is vacant. -/
def mf_multiSpeciesSimpleRule (_p : Adsorption) (L : Lattice) (s : Nat) : Bool :=
  L.isVacant s

/-- Modelled from the spec: `mf_vacantSitesExist`, declared in the header
without a body; the footprint counts exactly the configured number of sites
and every one of them is vacant. -/
def mf_vacantSitesExist (p : Adsorption) (e : Enumeration) (L : Lattice) (s : Nat) : Bool :=
  decide (((footprint e L s p.m_iNumSites).length : Int) = p.m_iNumSites) &&
    (footprint e L s p.m_iNumSites).all L.isVacant

/-- Modelled from the spec: `mf_hasSameHeight`, declared in the header without
a body; every site of the footprint has the height of the target site. -/
def mf_hasSameHeight (p : Adsorption) (e : Enumeration) (L : Lattice) (s : Nat) : Bool :=
  (footprint e L s p.m_iNumSites).all (fun t => decide (L.height t = L.height s))

/-- Modelled from the spec: `mf_multiSpeciesRule`, declared in the header
without a body; every footprint site is vacant and all share one height. -/
def mf_multiSpeciesRule (p : Adsorption) (e : Enumeration) (L : Lattice) (s : Nat) : Bool :=
  mf_vacantSitesExist p e L s && mf_hasSameHeight p e L s

/-- Modelled from the spec: `rules`, declared in the header without a body.
It answers false on a null or out-of-bounds site, otherwise what the rule
`m_fRules` points to answers; it returns the answer together with the process
object and the lattice after the call, which it does not mutate. -/
def rules (p : Adsorption) (e : Enumeration) (L : Lattice) (site : SitePtr) :
    Bool × Adsorption × Lattice :=
  match site with
  | none => (false, p, L)
  | some s =>
    if s < L.sites.length then
      match p.m_fRules with
      | .mf_uncoRule => (mf_uncoRule p L s, p, L)
      | .mf_basicRule => (mf_basicRule p L s, p, L)
      | .mf_multiSpeciesRule => (mf_multiSpeciesRule p e L s, p, L)
      | .mf_multiSpeciesSimpleRule => (mf_multiSpeciesSimpleRule p L s, p, L)
    else (false, p, L)

/-- Call `rules` on the same site `n` times in a row, threading the process
object and the lattice; returns the answers in call order and the final state. -/
def rulesRepeat (e : Enumeration) (site : SitePtr) :
    Nat → Adsorption → Lattice → List Bool × Adsorption × Lattice
  | 0, p, L => ([], p, L)
  | n + 1, p, L =>
    let r := rules p e L site
    let rest := rulesRepeat e site n r.2.1 r.2.2
    (r.1 :: rest.1, rest.2)

/-- Modelled from the spec: `mf_signleSpeciesSimpleAdsorption`, declared in the
header without a body; marks the site occupied, no neighbour is mutated. -/
def mf_signleSpeciesSimpleAdsorption (p : Adsorption) (L : Lattice) (s : Nat) : Lattice :=
  L.update (markOccupied p.m_sAdsorbed) s

/-- Modelled from the spec: `mf_signleSpeciesAdsorption`, declared in the
header without a body; marks every site of the footprint occupied, the
footprint being the one the rule enumerated. -/
def mf_signleSpeciesAdsorption (p : Adsorption) (e : Enumeration) (L : Lattice) (s : Nat) :
    Lattice :=
  (footprint e L s p.m_iNumSites).foldl (fun M t => M.update (markOccupied p.m_sAdsorbed) t) L

/-- Modelled from the spec: `mf_multiSpeciesSimpleAdsorption`, declared in the
header without a body; as the single-species case, recording the species. -/
def mf_multiSpeciesSimpleAdsorption (p : Adsorption) (L : Lattice) (s : Nat) : Lattice :=
  L.update (markSpecies p.m_sAdsorbed) s

/-- Modelled from the spec: `mf_multiSpeciesAdsorption`, declared in the header
without a body; as the single-species multi-site case, recording the species. -/
def mf_multiSpeciesAdsorption (p : Adsorption) (e : Enumeration) (L : Lattice) (s : Nat) :
    Lattice :=
  (footprint e L s p.m_iNumSites).foldl (fun M t => M.update (markSpecies p.m_sAdsorbed) t) L

/-- Modelled from the spec: `perform`, declared in the header without a body;
runs the execution `m_fPerform` points to.  A null site is outside the
contract of `perform`; the model leaves the lattice as it is. -/
def perform (p : Adsorption) (e : Enumeration) (L : Lattice) (site : SitePtr) : Lattice :=
  match site with
  | none => L
  | some s =>
    match p.m_fPerform with
    | .mf_signleSpeciesSimpleAdsorption => mf_signleSpeciesSimpleAdsorption p L s
    | .mf_signleSpeciesAdsorption => mf_signleSpeciesAdsorption p e L s
    | .mf_multiSpeciesSimpleAdsorption => mf_multiSpeciesSimpleAdsorption p L s
    | .mf_multiSpeciesAdsorption => mf_multiSpeciesAdsorption p e L s

/-- Modelled from the spec: `getProbability`, declared in the header without a
body; the fixed configured value under the constant law, the value of the
selected rate law otherwise.  It returns the rate together with the process
object after the call, which it does not mutate. -/
def getProbability (p : Adsorption) (laws : RateLaws) : Double × Adsorption :=
  match p.m_fType with
  | .constantType => (p.m_dAdsorptionRate, p)
  | .mf_simpleType => (laws.simple p, p)
  | .arrheniusType => (laws.arrhenius p, p)

end Adsorption

/-- A call the scheduler may issue on a process object. -/
inductive Call where
  | rules (site : SitePtr)
  | setTargetSite (site : SitePtr)
  | perform (site : SitePtr)
  | getProbability
  deriving DecidableEq, Repr

/-- Run one call: the rate it returned, if it was a rate query, and the process
object and lattice after it. -/
def step (laws : RateLaws) (e : Enumeration) (p : Adsorption) (L : Lattice) :
    Call → Option Double × Adsorption × Lattice
  | .rules site => (none, (p.rules e L site).2)
  | .setTargetSite site => (none, p.setTargetSite site, L)
  | .perform site => (none, p, p.perform e L site)
  | .getProbability => (some (p.getProbability laws).1, (p.getProbability laws).2, L)

/-- Run a sequence of calls: the rates returned by the rate queries among them,
in call order, and the process object and lattice after the last call. -/
def run (laws : RateLaws) (e : Enumeration) :
    List Call → Adsorption → Lattice → List Double × Adsorption × Lattice
  | [], p, L => ([], p, L)
  | c :: cs, p, L =>
    let r := step laws e p L c
    let rest := run laws e cs r.2.1 r.2.2
    (r.1.toList ++ rest.1, rest.2)

/-- Two vacant sites of heights 0 and 1, each the neighbour of the other; the
empty-lattice species is "Si". -/
def stepLattice : Lattice :=
  { sites := [{ label := "Si", species := none, height := 0, neighs := [1] },
              { label := "Si", species := none, height := 1, neighs := [0] }]
    vacant := "Si" }

/-- Rate laws used in examples; the constant law does not consult them. -/
def exampleLaws : RateLaws :=
  { simple := fun p => p.m_dStick
    arrhenius := fun p => p.m_dF }

/-- A process object used in examples: constant law, rate 2.5, footprint 1,
species "Cu", basic rule, single-species single-site execution.
`0x4004000000000000` is the double 2.5. -/
def exampleProcess : Adsorption :=
  { m_fType := .constantType
    m_fRules := .mf_basicRule
    m_fPerform := .mf_signleSpeciesSimpleAdsorption
    m_Site := none
    m_dStick := ⟨0⟩
    m_dF := ⟨0⟩
    m_dCtot := ⟨0⟩
    m_dMW := ⟨0⟩
    m_sAdsorbed := "Cu"
    m_iNumSites := 1
    m_dAdsorptionRate := ⟨0x4004000000000000⟩ }

/-- A process object used in examples: species "Cu" of footprint 2 under the
multi-species multi-site rule and execution. -/
def dimerProcess : Adsorption :=
  { exampleProcess with
    m_fRules := .mf_multiSpeciesRule
    m_fPerform := .mf_multiSpeciesAdsorption
    m_iNumSites := 2 }

/-! ## Theorems -/

open Adsorption

/-- C6: getTargetSite after setTargetSite(s) returns s, for every pointer s
(null included), and after any sequence of setTargetSite calls it returns the
argument of the last call. -/
theorem getTargetSite_setTargetSite (p : Adsorption) (s : SitePtr) (ss : List SitePtr) :
    (getTargetSite (setTargetSite p s)).1 = s ∧
    (getTargetSite ((ss ++ [s]).foldl setTargetSite p)).1 = s := by
  constructor
  · rfl
  · rw [List.foldl_append]
    rfl

/-- C8: getNumSites after setNumSites(i) returns i, for every object and
every int i. -/
theorem getNumSites_setNumSites (p : Adsorption) (i : Int) :
    (getNumSites (setNumSites p i)).1 = i := rfl

/-- C7 (as stated, refuted): setNumSites(0) is accepted, and getNumSites()
afterwards returns 0, which is below 1. -/
theorem setNumSites_accepts_zero :
    (getNumSites (setNumSites exampleProcess 0)).1 = 0 ∧
    ¬ (∀ (p : Adsorption) (i : Int), i < 1 → 1 ≤ (getNumSites (setNumSites p i)).1) := by
  refine ⟨rfl, ?_⟩
  intro h
  have h0 := h exampleProcess 0 (by decide)
  exact absurd h0 (by decide)

/-- C7 (amended): setNumSites has no failure path and stores every int; the
footprint size read back by getNumSites is at least 1 exactly when the int
passed to the setter was at least 1. -/
theorem getNumSites_ge_one_iff (p : Adsorption) (i : Int) :
    1 ≤ (getNumSites (setNumSites p i)).1 ↔ 1 ≤ i := Iff.rfl

/-- C9: each inline setter writes exactly one data member and the two getters
write none: setTargetSite changes only m_Site, setAdrorbed only m_sAdsorbed,
setNumSites only m_iNumSites. -/
theorem setters_frame (p : Adsorption) (s : SitePtr) (a : String) (i : Int) :
    (setTargetSite p s).m_Site = s ∧
    (setTargetSite p s).m_fType = p.m_fType ∧
    (setTargetSite p s).m_fRules = p.m_fRules ∧
    (setTargetSite p s).m_fPerform = p.m_fPerform ∧
    (setTargetSite p s).m_dStick = p.m_dStick ∧
    (setTargetSite p s).m_dF = p.m_dF ∧
    (setTargetSite p s).m_dCtot = p.m_dCtot ∧
    (setTargetSite p s).m_dMW = p.m_dMW ∧
    (setTargetSite p s).m_sAdsorbed = p.m_sAdsorbed ∧
    (setTargetSite p s).m_iNumSites = p.m_iNumSites ∧
    (setTargetSite p s).m_dAdsorptionRate = p.m_dAdsorptionRate ∧
    (setAdrorbed p a).m_sAdsorbed = a ∧
    (setAdrorbed p a).m_fType = p.m_fType ∧
    (setAdrorbed p a).m_fRules = p.m_fRules ∧
    (setAdrorbed p a).m_fPerform = p.m_fPerform ∧
    (setAdrorbed p a).m_Site = p.m_Site ∧
    (setAdrorbed p a).m_dStick = p.m_dStick ∧
    (setAdrorbed p a).m_dF = p.m_dF ∧
    (setAdrorbed p a).m_dCtot = p.m_dCtot ∧
    (setAdrorbed p a).m_dMW = p.m_dMW ∧
    (setAdrorbed p a).m_iNumSites = p.m_iNumSites ∧
    (setAdrorbed p a).m_dAdsorptionRate = p.m_dAdsorptionRate ∧
    (setNumSites p i).m_iNumSites = i ∧
    (setNumSites p i).m_fType = p.m_fType ∧
    (setNumSites p i).m_fRules = p.m_fRules ∧
    (setNumSites p i).m_fPerform = p.m_fPerform ∧
    (setNumSites p i).m_Site = p.m_Site ∧
    (setNumSites p i).m_dStick = p.m_dStick ∧
    (setNumSites p i).m_dF = p.m_dF ∧
    (setNumSites p i).m_dCtot = p.m_dCtot ∧
    (setNumSites p i).m_dMW = p.m_dMW ∧
    (setNumSites p i).m_sAdsorbed = p.m_sAdsorbed ∧
    (setNumSites p i).m_dAdsorptionRate = p.m_dAdsorptionRate ∧
    (getTargetSite p).2 = p ∧
    (getNumSites p).2 = p := by
  simp [setTargetSite, setAdrorbed, setNumSites, getTargetSite, getNumSites]

/-- The state returned by rules is the state it was called in. -/
theorem rules_keeps_state (p : Adsorption) (e : Enumeration) (L : Lattice) (site : SitePtr) :
    (rules p e L site).2 = (p, L) := by
  unfold rules
  split
  · rfl
  · split
    · split <;> rfl
    · rfl

/-- C2: the basic rule is true exactly on the sites whose occupancy label
equals the vacant sentinel of the lattice. -/
theorem mf_basicRule_iff_vacant (p : Adsorption) (L : Lattice) (s : Nat) :
    mf_basicRule p L s = true ↔ L.label s = some L.vacant := by
  simp [mf_basicRule, Lattice.isVacant]

/-- C3: when rules dispatches to the multi-species multi-site rule and some
neighbour in the footprint has a height different from the target site, rules
answers false, whatever the occupancy of the footprint (all vacant included). -/
theorem rules_false_of_height_mismatch (p : Adsorption) (e : Enumeration) (L : Lattice)
    (s : Nat) (hr : p.m_fRules = .mf_multiSpeciesRule)
    (hh : ∃ t ∈ e L s p.m_iNumSites, L.height t ≠ L.height s) :
    (rules p e L (some s)).1 = false := by
  obtain ⟨t, ht, hne⟩ := hh
  have hsame : mf_hasSameHeight p e L s = false := by
    rw [mf_hasSameHeight, List.all_eq_false]
    exact ⟨t, by simp [footprint, ht], by simpa using hne⟩
  simp only [rules, hr]
  split
  · simp [mf_multiSpeciesRule, hsame]
  · rfl

/-- C3 witness: footprint of size 2 on two vacant sites of heights 0 and 1. -/
theorem rules_false_of_height_mismatch_witness :
    (2 : Int) > 1 ∧
    (∀ t ∈ footprint indexOrder stepLattice 0 2, stepLattice.isVacant t = true) ∧
    (rules dimerProcess
      indexOrder stepLattice (some 0)).1 = false :=
  ⟨by decide, by decide,
    rules_false_of_height_mismatch
      dimerProcess
      indexOrder stepLattice 0 rfl ⟨1, by decide, by decide⟩⟩

/-- C5: rules returns the process object and the lattice it was given, and any
number of consecutive calls on the same site end in that same state and all
return the answer of the first call. -/
theorem rules_pure (p : Adsorption) (e : Enumeration) (L : Lattice) (site : SitePtr)
    (n : Nat) :
    (rules p e L site).2 = (p, L) ∧
    (rulesRepeat e site n p L).2 = (p, L) ∧
    (rulesRepeat e site n p L).1 = List.replicate n (rules p e L site).1 := by
  have h1 : (rules p e L site).2 = (p, L) := rules_keeps_state p e L site
  refine ⟨h1, ?_⟩
  induction n with
  | zero => exact ⟨rfl, rfl⟩
  | succ k ih =>
    have h2 : (rules p e L site).2.1 = p := by rw [h1]
    have h3 : (rules p e L site).2.2 = L := by rw [h1]
    simp only [rulesRepeat, h2, h3, List.replicate_succ]
    exact ⟨ih.1, by rw [ih.2]⟩

/-- A call leaves the rate-law selection and the configured rate as they are. -/
theorem step_keeps_rate (laws : RateLaws) (e : Enumeration) (p : Adsorption) (L : Lattice)
    (c : Call) :
    (step laws e p L c).2.1.m_fType = p.m_fType ∧
    (step laws e p L c).2.1.m_dAdsorptionRate = p.m_dAdsorptionRate := by
  cases c with
  | rules site =>
    have h := (rules_keeps_state p e L site)
    simp [step, h]
  | setTargetSite site => exact ⟨rfl, rfl⟩
  | perform site => exact ⟨rfl, rfl⟩
  | getProbability =>
    simp only [step, getProbability]
    split <;> exact ⟨rfl, rfl⟩

/-- C1: under the constant rate law with configured rate r, getProbability
returns r, and so does every getProbability call in and after any sequence of
rules, setTargetSite, perform and getProbability calls, on every lattice. -/
theorem getProbability_constant (laws : RateLaws) (e : Enumeration) (p : Adsorption)
    (L : Lattice) (r : Double) (calls : List Call)
    (hT : p.m_fType = .constantType) (hr : p.m_dAdsorptionRate = r) :
    (p.getProbability laws).1 = r ∧
    (run laws e calls p L).1 = List.replicate (calls.count .getProbability) r ∧
    ((run laws e calls p L).2.1.getProbability laws).1 = r := by
  have hnow : ∀ q : Adsorption, q.m_fType = .constantType → q.m_dAdsorptionRate = r →
      (q.getProbability laws).1 = r := by
    intro q h1 h2
    simp [getProbability, h1, h2]
  refine ⟨hnow p hT hr, ?_⟩
  induction calls generalizing p L with
  | nil => exact ⟨rfl, hnow p hT hr⟩
  | cons c cs ih =>
    have hk := step_keeps_rate laws e p L c
    have ih2 := ih (step laws e p L c).2.1 (step laws e p L c).2.2
      (hk.1.trans hT) (hk.2.trans hr)
    refine ⟨?_, ih2.2⟩
    simp only [run, ih2.1]
    cases c with
    | rules site => simp [step]
    | setTargetSite site => simp [step]
    | perform site => simp [step]
    | getProbability => simp [step, hnow p hT hr, List.replicate_succ]

/-- C1 witness (Scenario A): constant law, rate 2.5, footprint 1; a rate query,
a rule evaluation, a change of target site, an execution and two more rate
queries. -/
theorem getProbability_constant_witness :
    exampleProcess.m_fType = .constantType ∧
    exampleProcess.m_dAdsorptionRate = ⟨0x4004000000000000⟩ ∧
    exampleProcess.m_iNumSites = 1 ∧
    (exampleProcess.getProbability exampleLaws).1 = ⟨0x4004000000000000⟩ ∧
    (run exampleLaws indexOrder
      [.getProbability, .rules (some 0), .setTargetSite (some 0), .perform (some 0),
        .getProbability, .getProbability] exampleProcess stepLattice).1
      = List.replicate 3 ⟨0x4004000000000000⟩ ∧
    ((run exampleLaws indexOrder
      [.getProbability, .rules (some 0), .setTargetSite (some 0), .perform (some 0),
        .getProbability, .getProbability] exampleProcess stepLattice).2.1.getProbability exampleLaws).1
      = ⟨0x4004000000000000⟩ :=
  ⟨rfl, rfl, rfl,
    getProbability_constant exampleLaws indexOrder exampleProcess stepLattice
      ⟨0x4004000000000000⟩
      [.getProbability, .rules (some 0), .setTargetSite (some 0), .perform (some 0),
        .getProbability, .getProbability] rfl rfl⟩

end MicroProcesses
